import Mathlib

/-!
Shallow embedding of the `FlutterBridge` class from `src/bridge.ts`
(the message-port bridge between a Flutter WebView host and web content).

Modelling choices:
* A `MessagePort` is identified by a `Nat` (reference identity of the
  transferable endpoint).
* A subscriber callback is identified by a `Nat` (JS reference identity);
  the `Set<MessageCallback>` registry is a duplicate-free list kept in
  insertion order, with JS `Set.add` / `Set.delete` semantics.
* A JS `unknown` payload compared with `===` is modelled by `JSValue`,
  an inductive with decidable equality; `event.data === captureCommand`
  (a string) holds exactly when the payload is that string.
* Side effects (`port.postMessage`, `port.close`, `console.warn`) are
  returned explicitly in an `Effects` record; methods that in TS mutate
  `this` are state transformers `BridgeState → BridgeState × Effects`.
  Every method is a total Lean function: the absence of exceptions in the
  source is reflected by totality of the embedding.
-/

namespace FlutterBridge

/-- JS runtime value as far as the bridge inspects it: the bridge only ever
compares payloads with `===` against a configured string, so we distinguish
strings from other values by identity. -/
inductive JSValue where
  | str : String → JSValue
  | num : Int → JSValue
  | obj : Nat → JSValue
deriving DecidableEq, Repr

/-- Options record of the constructor, with the source defaults
(`debug: false`, `captureCommand: "capturePort"`,
`confirmationMessage: "portReceived"`). -/
structure FlutterBridgeOptions where
  debug : Bool := false
  captureCommand : String := "capturePort"
  confirmationMessage : String := "portReceived"
deriving DecidableEq, Repr

/-- Mutable instance state of the class: `port: MessagePort | null` and
`subscribers: Set<MessageCallback>`. -/
structure BridgeState where
  port : Option Nat
  subscribers : List Nat
deriving DecidableEq, Repr

/-- A `MessageEvent` as inspected by `capturePort`: its `data` payload and
its `ports` array of transferred endpoints. -/
structure MessageEvent where
  data : JSValue
  ports : List Nat
deriving DecidableEq, Repr

/-- Observable side effects of one method call: `postMessage` calls as
(endpoint, payload) pairs in order, `close()` calls, and the number of
`console.warn` diagnostics emitted. -/
structure Effects where
  sends : List (Nat × JSValue)
  closes : List Nat
  warnings : Nat
deriving DecidableEq, Repr

/-- Effects of a call that performs no send, no close and no warning. -/
def Effects.empty : Effects := { sends := [], closes := [], warnings := 0 }

/-- The shape returned by `getConnectionStatus()`. -/
structure ConnectionStatus where
  hasPort : Bool
  subscribersCount : Nat
deriving DecidableEq, Repr

/-- JS `Set.add`: inserts the element only if it is not already a member,
keeping insertion order. -/
def setAdd (s : List Nat) (cb : Nat) : List Nat :=
  if cb ∈ s then s else s ++ [cb]

/-- JS `Set.delete`: removes the element if present; no effect otherwise. -/
def setDelete (s : List Nat) (cb : Nat) : List Nat :=
  s.filter (fun x => x ≠ cb)

/-- `capturePort(event)`: if `event.data === this.options.captureCommand`
and `event.ports.length > 0`, binds `event.ports[0]` as the active port
and posts `this.options.confirmationMessage` over it; otherwise only
(optionally) logs and changes nothing. -/
def capturePort (opts : FlutterBridgeOptions) (st : BridgeState)
    (event : MessageEvent) : BridgeState × Effects :=
  if event.data = JSValue.str opts.captureCommand ∧ event.ports.length > 0 then
    let p := event.ports.headD 0
    ({ st with port := some p },
     { sends := [(p, JSValue.str opts.confirmationMessage)],
       closes := [], warnings := 0 })
  else
    (st, Effects.empty)

/-- `handleMessage(event)`: `this.subscribers.forEach(cb => cb(event.data))`.
Returns the list of callback invocations (callback identity, argument) in
registry iteration order; the instance state is not modified. -/
def handleMessage (st : BridgeState) (data : JSValue) : List (Nat × JSValue) :=
  st.subscribers.map (fun cb => (cb, data))

/-- `sendMessage(data)`: posts `data` over the active port if one is bound,
otherwise warns (`"Flutter port not initialized"`, plus four extra debug
warnings when `debug` is set) and returns normally. -/
def sendMessage (opts : FlutterBridgeOptions) (st : BridgeState)
    (data : JSValue) : BridgeState × Effects :=
  match st.port with
  | some p => (st, { sends := [(p, data)], closes := [], warnings := 0 })
  | none => (st, { sends := [], closes := [],
                   warnings := if opts.debug then 5 else 1 })

/-- `subscribe(callback)`: `this.subscribers.add(callback)`. -/
def subscribe (st : BridgeState) (cb : Nat) : BridgeState :=
  { st with subscribers := setAdd st.subscribers cb }

/-- The unsubscribe capability returned by `subscribe`:
`() => { this.subscribers.delete(callback) }`. -/
def unsubscribe (st : BridgeState) (cb : Nat) : BridgeState :=
  { st with subscribers := setDelete st.subscribers cb }

/-- `getConnectionStatus()`: a pure snapshot
`{ hasPort: !!this.port, subscribersCount: this.subscribers.size }`. -/
def getConnectionStatus (st : BridgeState) : ConnectionStatus :=
  { hasPort := st.port.isSome, subscribersCount := st.subscribers.length }

/-- `isConnected()`: `!!this.port`, a pure snapshot. -/
def isConnected (st : BridgeState) : Bool :=
  st.port.isSome

/-- `disconnect()`: closes the port if one is bound, nulls it, and clears
the subscriber registry unconditionally. -/
def disconnect (st : BridgeState) : BridgeState × Effects :=
  match st.port with
  | some p =>
      ({ port := none, subscribers := [] },
       { sends := [], closes := [p], warnings := 0 })
  | none =>
      ({ port := none, subscribers := [] }, Effects.empty)

/-- Well-formedness of the registry: a JS `Set` never holds duplicates. -/
def WF (st : BridgeState) : Prop :=
  st.subscribers.Nodup

lemma setAdd_of_mem {s : List Nat} {cb : Nat} (h : cb ∈ s) : setAdd s cb = s := by
  simp [setAdd, h]

lemma setDelete_idem (s : List Nat) (cb : Nat) :
    setDelete (setDelete s cb) cb = setDelete s cb := by
  induction s with
  | nil => rfl
  | cons a t ih =>
      by_cases h : a = cb <;> simp [setDelete, h] at ih ⊢

lemma count_map_pair (l : List Nat) (cb : Nat) (d : JSValue) :
    (l.map (fun c => (c, d))).count (cb, d) = l.count cb := by
  induction l with
  | nil => rfl
  | cons a t ih =>
      by_cases h : a = cb <;> simp [List.count_cons, h, ih]

lemma disconnect_fst (st : BridgeState) :
    (disconnect st).1 = { port := none, subscribers := [] } := by
  cases h : st.port <;> simp [disconnect, h]

lemma capturePort_subscribers (opts : FlutterBridgeOptions) (st : BridgeState)
    (ev : MessageEvent) : (capturePort opts st ev).1.subscribers = st.subscribers := by
  by_cases h : ev.data = JSValue.str opts.captureCommand ∧ ev.ports.length > 0 <;>
    simp [capturePort, h, Effects.empty]

end FlutterBridge

namespace FlutterBridge

/-- C1: on a bridge with no active channel, a transport event whose payload
is exactly the configured captureCommand and which carries at least one
transferable endpoint makes isConnected true, binds the first transferred
endpoint as the active port, and causes exactly one send — the configured
confirmationMessage over that captured endpoint. -/
theorem capturePort_handshake_success (opts : FlutterBridgeOptions)
    (st : BridgeState) (ev : MessageEvent)
    (hconn : isConnected st = false)
    (hdata : ev.data = JSValue.str opts.captureCommand)
    (hports : ev.ports ≠ []) :
    isConnected (capturePort opts st ev).1 = true ∧
    (capturePort opts st ev).1.port = some (ev.ports.headD 0) ∧
    (capturePort opts st ev).2.sends =
      [(ev.ports.headD 0, JSValue.str opts.confirmationMessage)] := by
  have hl : ev.ports.length > 0 := List.length_pos.mpr hports
  simp [capturePort, hdata, hl, isConnected]

/-- Witness for C1: concrete handshake on a fresh default bridge. -/
theorem capturePort_handshake_success_witness :
    isConnected (capturePort {} ⟨none, [4]⟩ ⟨JSValue.str "capturePort", [7, 9]⟩).1 = true ∧
    (capturePort {} ⟨none, [4]⟩ ⟨JSValue.str "capturePort", [7, 9]⟩).1.port = some 7 ∧
    (capturePort {} ⟨none, [4]⟩ ⟨JSValue.str "capturePort", [7, 9]⟩).2.sends =
      [(7, JSValue.str "portReceived")] :=
  capturePort_handshake_success {} ⟨none, [4]⟩ ⟨JSValue.str "capturePort", [7, 9]⟩
    (by decide) rfl (by decide)

/-- C2: handleMessage delivers the inbound payload unmodified to every
currently-registered subscriber — the number of callback invocations equals
the number of registered callbacks, every invocation receives the payload
verbatim, and every registered callback is invoked with it. -/
theorem handleMessage_fanout (st : BridgeState) (data : JSValue) :
    (handleMessage st data).length = st.subscribers.length ∧
    (∀ inv ∈ handleMessage st data, inv.2 = data) ∧
    (∀ cb ∈ st.subscribers, (cb, data) ∈ handleMessage st data) := by
  refine ⟨by simp [handleMessage], ?_, ?_⟩
  · intro inv hinv
    simp only [handleMessage, List.mem_map] at hinv
    obtain ⟨cb, _, h⟩ := hinv
    rw [← h]
  · intro cb hcb
    simp only [handleMessage, List.mem_map]
    exact ⟨cb, hcb, rfl⟩

/-- Witness for C2: a registered callback receives the concrete payload. -/
theorem handleMessage_fanout_witness :
    (4, JSValue.num 9) ∈ handleMessage ⟨some 1, [4, 7]⟩ (JSValue.num 9) :=
  (handleMessage_fanout ⟨some 1, [4, 7]⟩ (JSValue.num 9)).2.2 4 (by decide)

/-- C3: sendMessage with no active channel returns normally (the embedding
is total, matching the exception-free source path), performs no send and no
close, leaves the state — port and registry — unchanged, and emits at least
one warning diagnostic. -/
theorem sendMessage_no_port_noop (opts : FlutterBridgeOptions)
    (st : BridgeState) (data : JSValue) (h : st.port = none) :
    (sendMessage opts st data).1 = st ∧
    (sendMessage opts st data).2.sends = [] ∧
    (sendMessage opts st data).2.closes = [] ∧
    (sendMessage opts st data).2.warnings ≥ 1 := by
  cases hd : opts.debug <;> simp [sendMessage, h, hd]

/-- Witness for C3: concrete send on a port-less bridge. -/
theorem sendMessage_no_port_noop_witness :
    (sendMessage {} ⟨none, [2]⟩ (JSValue.str "hi")).1 = ⟨none, [2]⟩ ∧
    (sendMessage {} ⟨none, [2]⟩ (JSValue.str "hi")).2.sends = [] ∧
    (sendMessage {} ⟨none, [2]⟩ (JSValue.str "hi")).2.closes = [] ∧
    (sendMessage {} ⟨none, [2]⟩ (JSValue.str "hi")).2.warnings ≥ 1 :=
  sendMessage_no_port_noop {} ⟨none, [2]⟩ (JSValue.str "hi") rfl

/-- C4: immediately after disconnect, isConnected is false, the connection
status snapshot is (hasPort false, subscribersCount 0) — the port is
released and the registry cleared unconditionally — and a subsequent
sendMessage is a warning diagnostic, not a send. -/
theorem disconnect_resets (st : BridgeState) (opts : FlutterBridgeOptions)
    (data : JSValue) :
    isConnected (disconnect st).1 = false ∧
    getConnectionStatus (disconnect st).1 = ⟨false, 0⟩ ∧
    (sendMessage opts (disconnect st).1 data).1 = (disconnect st).1 ∧
    (sendMessage opts (disconnect st).1 data).2.sends = [] ∧
    (sendMessage opts (disconnect st).1 data).2.warnings ≥ 1 := by
  rw [disconnect_fst]
  cases hd : opts.debug <;>
    simp [isConnected, getConnectionStatus, sendMessage, hd]

/-- Witness for C4: concrete disconnect of a connected bridge holding
subscribers. -/
theorem disconnect_resets_witness :
    isConnected (disconnect ⟨some 3, [1, 2]⟩).1 = false ∧
    getConnectionStatus (disconnect ⟨some 3, [1, 2]⟩).1 = ⟨false, 0⟩ ∧
    (sendMessage {} (disconnect ⟨some 3, [1, 2]⟩).1 (JSValue.num 0)).1 =
      (disconnect ⟨some 3, [1, 2]⟩).1 ∧
    (sendMessage {} (disconnect ⟨some 3, [1, 2]⟩).1 (JSValue.num 0)).2.sends = [] ∧
    (sendMessage {} (disconnect ⟨some 3, [1, 2]⟩).1 (JSValue.num 0)).2.warnings ≥ 1 :=
  disconnect_resets ⟨some 3, [1, 2]⟩ {} (JSValue.num 0)

/-- C5: the unsubscribe capability is safe to call repeatedly — the first
call removes exactly the registered callback (other members survive), and a
second call on the already-shrunk registry changes nothing. -/
theorem unsubscribe_idem (st : BridgeState) (cb : Nat) :
    cb ∉ (unsubscribe st cb).subscribers ∧
    unsubscribe (unsubscribe st cb) cb = unsubscribe st cb ∧
    (∀ x ∈ st.subscribers, x ≠ cb → x ∈ (unsubscribe st cb).subscribers) := by
  refine ⟨?_, ?_, ?_⟩
  · simp [unsubscribe, setDelete]
  · simp only [unsubscribe]
    rw [setDelete_idem]
  · intro x hx hne
    simp [unsubscribe, setDelete, hx, hne]

/-- Witness for C5: removing callback 2 keeps callback 1 registered. -/
theorem unsubscribe_idem_witness :
    1 ∈ (unsubscribe ⟨some 3, [1, 2]⟩ 2).subscribers :=
  (unsubscribe_idem ⟨some 3, [1, 2]⟩ 2).2.2 1 (by decide) (by decide)

/-- C6: a transport event with the right command but no transferred
endpoint, or with endpoints but a payload different from the capture
command, leaves the whole bridge state untouched and produces no send, no
close and no warning. -/
theorem capturePort_nonmatching_ignored (opts : FlutterBridgeOptions)
    (st : BridgeState) (ev : MessageEvent)
    (h : (ev.data = JSValue.str opts.captureCommand ∧ ev.ports = []) ∨
         (ev.ports ≠ [] ∧ ev.data ≠ JSValue.str opts.captureCommand)) :
    capturePort opts st ev = (st, Effects.empty) := by
  rcases h with ⟨_, hp⟩ | ⟨_, hd⟩
  · simp [capturePort, hp]
  · simp [capturePort, hd]

/-- Witness for C6: correct command with zero endpoints is ignored. -/
theorem capturePort_nonmatching_ignored_witness :
    capturePort {} ⟨some 5, [8]⟩ ⟨JSValue.str "capturePort", []⟩ =
      (⟨some 5, [8]⟩, Effects.empty) :=
  capturePort_nonmatching_ignored {} ⟨some 5, [8]⟩ ⟨JSValue.str "capturePort", []⟩
    (Or.inl ⟨rfl, rfl⟩)

/-- C7: re-subscribing an already-registered callback reference is a single
logical membership — the Set-backed registry is unchanged, the subscriber
count does not grow, and an inbound message is delivered to that callback
exactly once. -/
theorem subscribe_idem (st : BridgeState) (cb : Nat) (data : JSValue)
    (hmem : cb ∈ st.subscribers) (hwf : WF st) :
    subscribe st cb = st ∧
    (getConnectionStatus (subscribe st cb)).subscribersCount =
      (getConnectionStatus st).subscribersCount ∧
    (handleMessage (subscribe st cb) data).count (cb, data) = 1 := by
  have h1 : subscribe st cb = st := by
    cases st
    simp [subscribe, setAdd_of_mem hmem]
  refine ⟨h1, by rw [h1], ?_⟩
  rw [h1, handleMessage, count_map_pair]
  exact List.count_eq_one_of_mem hwf hmem

/-- Witness for C7: re-subscribing callback 4 on a duplicate-free registry
already containing it. -/
theorem subscribe_idem_witness :
    subscribe ⟨some 1, [4, 7]⟩ 4 = ⟨some 1, [4, 7]⟩ ∧
    (getConnectionStatus (subscribe ⟨some 1, [4, 7]⟩ 4)).subscribersCount =
      (getConnectionStatus ⟨some 1, [4, 7]⟩).subscribersCount ∧
    (handleMessage (subscribe ⟨some 1, [4, 7]⟩ 4) (JSValue.num 2)).count
      (4, JSValue.num 2) = 1 :=
  subscribe_idem ⟨some 1, [4, 7]⟩ 4 (JSValue.num 2) (by decide)
    (by unfold WF; decide)

/-- C8: a second qualifying handshake while a port is already bound
overwrites the binding with the new first endpoint, closes nothing, sends
the confirmation over the new endpoint, and the bridge stays connected
holding exactly the new endpoint. -/
theorem capturePort_second_overwrites (opts : FlutterBridgeOptions)
    (st : BridgeState) (ev : MessageEvent) (q : Nat)
    (hq : st.port = some q)
    (hdata : ev.data = JSValue.str opts.captureCommand)
    (hports : ev.ports ≠ []) :
    (capturePort opts st ev).1.port = some (ev.ports.headD 0) ∧
    (capturePort opts st ev).2.closes = [] ∧
    (capturePort opts st ev).2.sends =
      [(ev.ports.headD 0, JSValue.str opts.confirmationMessage)] ∧
    isConnected (capturePort opts st ev).1 = true := by
  have hl : ev.ports.length > 0 := List.length_pos.mpr hports
  simp [capturePort, hdata, hl, isConnected]

/-- Witness for C8: duplicate handshake over a bridge already bound to
port 3 rebinds to port 8 without a close. -/
theorem capturePort_second_overwrites_witness :
    (capturePort {} ⟨some 3, [1]⟩ ⟨JSValue.str "capturePort", [8]⟩).1.port = some 8 ∧
    (capturePort {} ⟨some 3, [1]⟩ ⟨JSValue.str "capturePort", [8]⟩).2.closes = [] ∧
    (capturePort {} ⟨some 3, [1]⟩ ⟨JSValue.str "capturePort", [8]⟩).2.sends =
      [(8, JSValue.str "portReceived")] ∧
    isConnected (capturePort {} ⟨some 3, [1]⟩ ⟨JSValue.str "capturePort", [8]⟩).1 = true :=
  capturePort_second_overwrites {} ⟨some 3, [1]⟩ ⟨JSValue.str "capturePort", [8]⟩ 3
    rfl rfl (by decide)

/-- C9: disconnect on a bridge with no bound port is safe — it performs no
close (and, being total, cannot throw), still clears the registry and nulls
the port, and disconnect is idempotent: a second call reproduces exactly
the state the first left. -/
theorem disconnect_idem (st : BridgeState) :
    (st.port = none → (disconnect st).2 = Effects.empty) ∧
    (disconnect st).1.port = none ∧
    (disconnect st).1.subscribers = [] ∧
    (disconnect (disconnect st).1).1 = (disconnect st).1 := by
  refine ⟨?_, ?_, ?_, ?_⟩
  · intro h
    simp [disconnect, h]
  · rw [disconnect_fst]
  · rw [disconnect_fst]
  · rw [disconnect_fst, disconnect_fst]

/-- Witness for C9: disconnect of a port-less bridge with subscribers
produces no effect record and clears the registry. -/
theorem disconnect_idem_witness :
    (disconnect ⟨none, [2, 5]⟩).2 = Effects.empty ∧
    (disconnect ⟨none, [2, 5]⟩).1.subscribers = [] :=
  ⟨(disconnect_idem ⟨none, [2, 5]⟩).1 rfl, (disconnect_idem ⟨none, [2, 5]⟩).2.2.1⟩

/-- C10: the observers and the send path do not mutate the bridge —
isConnected and getConnectionStatus are embedded as pure snapshots of the
state, sendMessage returns the state unchanged whether or not a port is
bound, and a capture leaves the registry intact, so callbacks subscribed
before the handshake still receive subsequent inbound messages. -/
theorem observers_frame (opts : FlutterBridgeOptions) (st : BridgeState)
    (data d : JSValue) (ev : MessageEvent) :
    (sendMessage opts st data).1 = st ∧
    (capturePort opts st ev).1.subscribers = st.subscribers ∧
    getConnectionStatus st =
      ⟨isConnected st, (getConnectionStatus st).subscribersCount⟩ ∧
    (∀ cb ∈ st.subscribers, (cb, d) ∈ handleMessage (capturePort opts st ev).1 d) := by
  refine ⟨?_, capturePort_subscribers opts st ev, rfl, ?_⟩
  · cases h : st.port <;> simp [sendMessage, h]
  · intro cb hcb
    simp only [handleMessage, capturePort_subscribers, List.mem_map]
    exact ⟨cb, hcb, rfl⟩

/-- Witness for C10: a callback subscribed before the handshake receives a
message delivered after it. -/
theorem observers_frame_witness :
    (6, JSValue.str "x") ∈
      handleMessage
        (capturePort {} ⟨none, [6]⟩ ⟨JSValue.str "capturePort", [9]⟩).1
        (JSValue.str "x") :=
  (observers_frame {} ⟨none, [6]⟩ (JSValue.num 0) (JSValue.str "x")
    ⟨JSValue.str "capturePort", [9]⟩).2.2.2 6 (by decide)

end FlutterBridge
